import Mathlib

/-!
Verification of the subscription/entitlement core of the llm_proxy service.

The definitions below are a shallow embedding of the JavaScript sources:
  * `src/src/config/dynamodb.js`            (DynamoDB entitlement store)
  * middleware `checkSubscription` / `requireActivePlan` / `trackUsage`
  * the Stripe webhook handlers of `subscriptionService` (DynamoDB variant)
  * `src/src/services/iosSubscriptionService.js` (iOS receipt reconciliation)
  * `src/src/services/mockUserService.js`   (in-memory mock store)

Wall-clock instants are modelled by the calendar structure `DateTime`
ordered lexicographically; this order agrees with the epoch-millisecond
order the JavaScript `Date` comparisons use, and it keeps the calendar
fields (`getFullYear` / `getMonth` / day) visible for the
"first day of next month" computation of `getNextMonthDate`.
-/

/-- Calendar instant: `month` is 0-based as in the JavaScript `Date` API;
`ms` is the millisecond offset within the day. -/
structure DateTime where
  year : Int
  month : Int
  day : Int
  ms : Int
deriving DecidableEq, Repr

/-- `dtLt a b` models the JavaScript comparison `a < b` on `Date` values
(equivalently on their epoch milliseconds): lexicographic on the
calendar fields. -/
def dtLt (a b : DateTime) : Bool :=
  decide (a.year < b.year ∨ (a.year = b.year ∧ (a.month < b.month ∨
    (a.month = b.month ∧ (a.day < b.day ∨ (a.day = b.day ∧ a.ms < b.ms))))))

theorem dtLt_irrefl (a : DateTime) : dtLt a a = false := by
  simp [dtLt]

theorem dtLt_trans {a b c : DateTime} (h1 : dtLt a b = true) (h2 : dtLt b c = true) :
    dtLt a c = true := by
  cases a; cases b; cases c
  simp only [dtLt, decide_eq_true_eq] at h1 h2 ⊢
  omega

theorem dtLt_false_iff (a b : DateTime) :
    dtLt a b = false ↔ (dtLt b a = true ∨ a = b) := by
  cases a; cases b
  simp only [dtLt, decide_eq_false_iff_not, decide_eq_true_eq, DateTime.mk.injEq]
  omega

/-- `getNextMonthDate` of `dynamodb.js`:
`new Date(now.getFullYear(), now.getMonth() + 1, 1)` — local midnight on
the first day of the month after `now` (the `Date` constructor
normalises month 12 to January of the next year). -/
def getNextMonthDate (now : DateTime) : DateTime :=
  if now.month + 1 ≥ 12 then
    { year := now.year + 1, month := now.month + 1 - 12, day := 1, ms := 0 }
  else
    { year := now.year, month := now.month + 1, day := 1, ms := 0 }

inductive Plan
  | free
  | pro
  | enterprise
deriving DecidableEq, Repr

inductive SubStatus
  | active
  | inactive
  | cancelled
  | past_due
  | expired
deriving DecidableEq, Repr

inductive Platform
  | stripe
  | ios
  | android
deriving DecidableEq, Repr

/-- One usage counter: `{ current, limit }`; `limit = -1` means unlimited. -/
structure Counter where
  current : Nat
  limit : Int
deriving DecidableEq, Repr

structure Usage where
  requests : Counter
  tokens : Counter
  resetDate : DateTime
deriving DecidableEq, Repr

/-- The `iosReceiptData` object written by the iOS reconciliation. -/
structure IosReceiptData where
  productId : String
  transactionId : String
  originalTransactionId : String
  purchaseDate : DateTime
  expiresDate : Option DateTime
deriving DecidableEq, Repr

structure Subscription where
  plan : Plan
  status : SubStatus
  platform : Platform
  usage : Usage
  startDate : Option DateTime
  endDate : Option DateTime
  iosReceiptData : Option IosReceiptData
  stripeSubscriptionId : Option String
  stripeCustomerId : Option String
deriving DecidableEq, Repr

/-- The user record as stored (and as returned by `formatUser`). -/
structure User where
  userId : String
  email : String
  username : String
  subscription : Option Subscription
deriving DecidableEq, Repr

/-- One row of the usage ledger table (`logApiUsage`). -/
structure UsageRow where
  userId : String
  provider : String
  model : String
  tokensUsed : Nat
  cost : Nat
  date : DateTime
deriving DecidableEq, Repr

/-- The DynamoDB state visible to this subsystem: the users table and
the append-only usage table. -/
structure Db where
  users : List User
  usageTable : List UsageRow
deriving DecidableEq, Repr

/-- Injected infrastructure failures, for the error-propagation claims. -/
structure Faults where
  counterWriteFails : Bool
  ledgerWriteFails : Bool
deriving DecidableEq, Repr

namespace DynamoDBService

/-- `getUserByEmail`: `GetCommand` on `PK = USER#email`. -/
def getUserByEmail (db : Db) (email : String) : Option User :=
  db.users.find? (fun u => u.email == email)

/-- `getUserById`: GSI1 query on `USER#userId`, first item. -/
def getUserById (db : Db) (userId : String) : Option User :=
  db.users.find? (fun u => u.userId == userId)

/-- The subscription object built by `createUser`. -/
def freshSubscription (now : DateTime) : Subscription :=
  { plan := .free
    status := .active
    platform := .stripe
    usage :=
      { requests := { current := 0, limit := 100 }
        tokens := { current := 0, limit := 10000 }
        resetDate := getNextMonthDate now }
    startDate := none
    endDate := none
    iosReceiptData := none
    stripeSubscriptionId := none
    stripeCustomerId := none }

def mkUser (userId email username : String) (s : Subscription) : User :=
  { userId := userId, email := email, username := username, subscription := some s }

def pushUser (db : Db) (u : User) : Db :=
  { db with users := u :: db.users }

/-- `createUser`: `PutCommand` with `ConditionExpression
attribute_not_exists(PK)` where `PK = USER#email`; a
`ConditionalCheckFailedException` becomes the error
`"User already exists"`. -/
def createUser (db : Db) (email username userId : String) (now : DateTime) :
    Except String (User × Db) :=
  if db.users.any (fun u => u.email == email) then
    .error "User already exists"
  else
    let u := mkUser userId email username (freshSubscription now)
    .ok (u, pushUser db u)

/-- The `UpdateCommand` `SET subscription = :subscription` on the record
keyed by the user's email (reached through `getUserById`). -/
def setUserSub (db : Db) (userId : String) (s : Subscription) : Db :=
  { db with
    users := db.users.map (fun u =>
      if u.userId == userId then { u with subscription := some s } else u) }

/-- `updateUserSubscription` of `dynamodb.js`: look the user up by id
(`"User not found"` if absent) and replace the whole `subscription`
attribute. -/
def updateUserSubscription (db : Db) (userId : String) (s : Subscription) :
    Except String Db :=
  match getUserById db userId with
  | none => .error "User not found"
  | some _ => .ok (setUserSub db userId s)

/-- The `ADD subscription.#usage.requests.current :reqInc,
subscription.#usage.tokens.current :tokInc` update (additive, applied to
the stored item). -/
def addUsage (db : Db) (userId : String) (reqInc tokInc : Nat) : Db :=
  { db with
    users := db.users.map (fun u =>
      if u.userId == userId then
        match u.subscription with
        | none => u
        | some s =>
          { u with
            subscription := some
              { s with
                usage :=
                  { s.usage with
                    requests := { s.usage.requests with
                      current := s.usage.requests.current + reqInc }
                    tokens := { s.usage.tokens with
                      current := s.usage.tokens.current + tokInc } } } }
      else u) }

/-- `logApiUsage`: a `PutCommand` into the usage table; a write failure
is logged and swallowed (`// Don't throw`), so the result component is
`.ok` on both branches. -/
def logApiUsage (db : Db) (userId : String) (provider model : String)
    (tokensUsed cost : Nat) (now : DateTime) (faults : Faults) :
    (Except String Unit) × Db :=
  if faults.ledgerWriteFails then
    (.ok (), db)
  else
    (.ok (),
      { db with
        usageTable :=
          { userId := userId, provider := provider, model := model,
            tokensUsed := tokensUsed, cost := cost, date := now } :: db.usageTable })

/-- `incrementUsage` of `dynamodb.js`: fetch the user; if `now >
resetDate`, zero both counters and advance `resetDate` (a first
`UpdateCommand`); then `ADD` the deltas (request delta fixed at `1`,
token delta `tokensUsed`, default `0`); finally append a usage-ledger
row. A failure of the counter update propagates (`throw error`); the
ledger append never does. The state already written before a failure is
kept in the returned `Db`. -/
def incrementUsage (db : Db) (userId : String) (tokensUsed : Nat)
    (now : DateTime) (faults : Faults) : (Except String Unit) × Db :=
  match getUserById db userId with
  | none => (.error "User not found", db)
  | some user =>
    match user.subscription with
    | none => (.error "cannot read usage of undefined", db)
    | some s =>
      let db1 :=
        if dtLt s.usage.resetDate now then
          setUserSub db userId
            { s with
              usage :=
                { s.usage with
                  requests := { s.usage.requests with current := 0 }
                  tokens := { s.usage.tokens with current := 0 }
                  resetDate := getNextMonthDate now } }
        else db
      if faults.counterWriteFails then
        (.error "StoreUnavailable", db1)
      else
        let db2 := addUsage db1 userId 1 tokensUsed
        let db3 := (logApiUsage db2 userId "unknown" "unknown" tokensUsed 0 now faults).2
        (.ok (), db3)

/-- `canMakeRequest`: false without a user or subscription; true when
`now > resetDate` (counters will be reset on the next increment);
otherwise `requests.current < requests.limit || requests.limit === -1`. -/
def canMakeRequest (user : Option User) (now : DateTime) : Bool :=
  match user with
  | none => false
  | some u =>
    match u.subscription with
    | none => false
    | some s =>
      if dtLt s.usage.resetDate now then true
      else
        decide ((s.usage.requests.current : Int) < s.usage.requests.limit) ||
          decide (s.usage.requests.limit = -1)

/-- `hasActiveSubscription`: `subscription.status === 'active'`. -/
def hasActiveSubscription (user : Option User) : Bool :=
  match user with
  | none => false
  | some u =>
    match u.subscription with
    | none => false
    | some s => s.status == SubStatus.active

end DynamoDBService

/-! ## Subscription middleware (`checkSubscription` / `requireActivePlan`) -/

namespace Middleware

/-- Outcome of the `checkSubscription` middleware. -/
inductive CheckResult
  | userNotFound                      -- 401 User not found
  | usageLimitExceeded (error : String)  -- 429 denial
  | proceed (dbUser : User)           -- next()
deriving DecidableEq, Repr

/-- `checkSubscription` middleware: fetch the user, 401 when missing,
429 `"Usage limit exceeded"` when `canMakeRequest` is false, else
attach the user and continue. -/
def checkSubscription (fetched : Option User) (now : DateTime) : CheckResult :=
  match fetched with
  | none => .userNotFound
  | some u =>
    if DynamoDBService.canMakeRequest (some u) now then .proceed u
    else .usageLimitExceeded "Usage limit exceeded"

/-- `planHierarchy = { free: 0, pro: 1, enterprise: 2 }`. -/
def planLevel : Plan → Nat
  | .free => 0
  | .pro => 1
  | .enterprise => 2

/-- Outcome of the `requireActivePlan(minPlan)` middleware. -/
inductive PlanGateResult
  | userNotFound            -- 401
  | serverError             -- 500 (thrown, e.g. record without subscription)
  | insufficientPlan        -- 403 Insufficient subscription plan
  | subscriptionExpired     -- 403 Subscription expired ... renewUrl
  | allowed (dbUser : User) -- next()
deriving DecidableEq, Repr

/-- `requireActivePlan(minPlan)`: compare `planHierarchy[plan]` against
`planHierarchy[minPlan]`; deny `insufficientPlan` when below; then deny
`subscriptionExpired` when `!hasActiveSubscription(user) && plan !==
'free'`; else continue. -/
def requireActivePlan (minPlan : Plan) (fetched : Option User) : PlanGateResult :=
  match fetched with
  | none => .userNotFound
  | some u =>
    match u.subscription with
    | none => .serverError
    | some s =>
      if planLevel s.plan < planLevel minPlan then .insufficientPlan
      else if ¬ DynamoDBService.hasActiveSubscription (some u) ∧ s.plan ≠ .free then
        .subscriptionExpired
      else .allowed u

end Middleware

/-! ## Stripe-style webhook reconciliation (`subscriptionService`) -/

/-- Plan → request limit, the shared `this.plans[...].requests` table
(`free: 100, pro: 1000, enterprise: -1`). -/
def planRequests : Plan → Int
  | .free => 100
  | .pro => 1000
  | .enterprise => -1

/-- Plan → token limit (`free: 10000, pro: 100000, enterprise: -1`). -/
def planTokens : Plan → Int
  | .free => 10000
  | .pro => 100000
  | .enterprise => -1

namespace SubscriptionService

inductive StripeEventType
  | subscriptionUpdated   -- customer.subscription.updated
  | subscriptionDeleted   -- customer.subscription.deleted
  | paymentSucceeded      -- invoice.payment_succeeded
  | paymentFailed         -- invoice.payment_failed
  | other
deriving DecidableEq, Repr

/-- The event data the handlers consume: the user id carried in the
subscription metadata, the plan name (`metadata.plan`, absent → free),
the Stripe status string, and `current_period_end` (already converted
from epoch seconds to an instant). -/
structure StripeEvent where
  type : StripeEventType
  userId : String
  planMeta : Option Plan
  status : String
  currentPeriodEnd : DateTime
deriving DecidableEq, Repr

/-- The subscription object built by `handleSubscriptionChange`:
spread of the stored subscription with plan, mapped status, `endDate`
and the per-plan limits replaced; the `current` counters are spread
through unchanged. -/
def applySubscriptionChange (e : StripeEvent) (s : Subscription) : Subscription :=
  let plan := e.planMeta.getD .free
  { s with
    plan := plan
    status := if e.status == "active" then .active else .inactive
    endDate := some e.currentPeriodEnd
    usage :=
      { s.usage with
        requests := { s.usage.requests with limit := planRequests plan }
        tokens := { s.usage.tokens with limit := planTokens plan } } }

/-- `handleSubscriptionChange`: no-op when the user is unknown,
otherwise read-modify-write of the subscription attribute. -/
def handleSubscriptionChange (db : Db) (e : StripeEvent) : Except String Db :=
  match DynamoDBService.getUserById db e.userId with
  | none => .ok db
  | some user =>
    match user.subscription with
    | none => .error "cannot read usage of undefined"
    | some s =>
      DynamoDBService.updateUserSubscription db e.userId (applySubscriptionChange e s)

/-- `handlePaymentSuccess`: spread of the stored subscription with
`status: 'active'`. -/
def handlePaymentSuccess (db : Db) (e : StripeEvent) : Except String Db :=
  match DynamoDBService.getUserById db e.userId with
  | none => .ok db
  | some user =>
    match user.subscription with
    | none => .error "cannot read subscription of undefined"
    | some s =>
      DynamoDBService.updateUserSubscription db e.userId { s with status := .active }

/-- `handlePaymentFailed`: spread of the stored subscription with
`status: 'past_due'`. -/
def handlePaymentFailed (db : Db) (e : StripeEvent) : Except String Db :=
  match DynamoDBService.getUserById db e.userId with
  | none => .ok db
  | some user =>
    match user.subscription with
    | none => .error "cannot read subscription of undefined"
    | some s =>
      DynamoDBService.updateUserSubscription db e.userId { s with status := .past_due }

/-- `handleWebhook`: early return when Stripe is not configured, then
dispatch on the event type (unknown types fall through the switch). -/
def handleWebhook (stripeConfigured : Bool) (db : Db) (e : StripeEvent) :
    Except String Db :=
  if ¬ stripeConfigured then .ok db
  else
    match e.type with
    | .subscriptionUpdated => handleSubscriptionChange db e
    | .subscriptionDeleted => handleSubscriptionChange db e
    | .paymentSucceeded => handlePaymentSuccess db e
    | .paymentFailed => handlePaymentFailed db e
    | .other => .ok db

end SubscriptionService

/-! ## iOS receipt reconciliation (`iosSubscriptionService`) -/

namespace IosSubscriptionService

/-- One entry of `receipt.in_app`. The `*_ms` fields stand for the epoch
millisecond strings of the Apple payload (already parsed); `DateTime`
order coincides with the numeric order used by the sort comparator. -/
structure InAppPurchase where
  product_id : String
  transaction_id : String
  original_transaction_id : String
  purchase_date_ms : DateTime
  expires_date_ms : DateTime
deriving DecidableEq, Repr

/-- `this.productIdToPlan` with the default product ids. -/
def productIdToPlan : String → Option Plan
  | "com.yourapp.pro.monthly" => some .pro
  | "com.yourapp.pro.yearly" => some .pro
  | "com.yourapp.enterprise.monthly" => some .enterprise
  | "com.yourapp.enterprise.yearly" => some .enterprise
  | _ => none

/-- Head of the descending stable sort by `expires_date_ms`: the first
element whose expiry is maximal. -/
def selectLatest : List InAppPurchase → Option InAppPurchase
  | [] => none
  | p :: rest =>
    some (rest.foldl
      (fun acc q => if dtLt acc.expires_date_ms q.expires_date_ms then q else acc) p)

/-- `getLatestActiveSubscription`: keep the purchases whose
`product_id` is a key of `productIdToPlan`, sort descending by
`expires_date_ms`, return the first (or null). -/
def getLatestActiveSubscription (inAppPurchases : List InAppPurchase) :
    Option InAppPurchase :=
  selectLatest (inAppPurchases.filter (fun p => (productIdToPlan p.product_id).isSome))

/-- The `updatedSubscription` object literal of
`iosSubscriptionService.updateUserSubscription`: everything is rebuilt
from the arguments except the `current` counters, `resetDate` and
`startDate`, which are carried over from the stored subscription
(defaulting to `0` / next-month / `now` when absent). The object has no
Stripe fields, so the prior platform's receipt metadata is discarded. -/
def buildIosSubscription (user : User) (plan : Plan)
    (iosReceipt : Option InAppPurchase) (expiresDate : Option DateTime)
    (now : DateTime) : Subscription :=
  { plan := plan
    status :=
      match expiresDate with
      | some d => if dtLt now d then .active else (if plan == .free then .active else .expired)
      | none => if plan == .free then .active else .expired
    platform := .ios
    iosReceiptData :=
      iosReceipt.map (fun r =>
        { productId := r.product_id
          transactionId := r.transaction_id
          originalTransactionId := r.original_transaction_id
          purchaseDate := r.purchase_date_ms
          expiresDate := expiresDate })
    startDate := some ((user.subscription.bind (fun s => s.startDate)).getD now)
    endDate := expiresDate
    stripeSubscriptionId := none
    stripeCustomerId := none
    usage :=
      { requests :=
          { current := (user.subscription.map (fun s => s.usage.requests.current)).getD 0
            limit := planRequests plan }
        tokens :=
          { current := (user.subscription.map (fun s => s.usage.tokens.current)).getD 0
            limit := planTokens plan }
        resetDate := (user.subscription.map (fun s => s.usage.resetDate)).getD
          (getNextMonthDate now) } }

/-- `updateUserSubscription` of the iOS service: build the subscription
object and store it through the DynamoDB service. -/
def updateUserSubscription (db : Db) (user : User) (plan : Plan)
    (iosReceipt : Option InAppPurchase) (expiresDate : Option DateTime)
    (now : DateTime) : Except String Db :=
  DynamoDBService.updateUserSubscription db user.userId
    (buildIosSubscription user plan iosReceipt expiresDate now)

/-- What `processSubscription` returns to the route. -/
structure ProcessResult where
  plan : Plan
  status : String
  expiresDate : Option DateTime
  productId : Option String
  transactionId : Option String
deriving DecidableEq, Repr

/-- `processSubscription` after the external receipt verification has
already produced the `in_app` purchase list: fetch the user, select the
latest known-product purchase; when none, store a free-plan
subscription with no receipt metadata; otherwise map the product id to
a plan (unknown id is an error) and store the new subscription,
`active` only while the expiry lies in the future. -/
def processSubscription (db : Db) (userId : String)
    (inAppPurchases : List InAppPurchase) (now : DateTime) :
    Except String (Db × ProcessResult) :=
  match DynamoDBService.getUserById db userId with
  | none => .error "User not found"
  | some user =>
    match getLatestActiveSubscription inAppPurchases with
    | none =>
      match updateUserSubscription db user .free none none now with
      | .error e => .error e
      | .ok db1 =>
        .ok (db1,
          { plan := .free, status := "active", expiresDate := none,
            productId := none, transactionId := none })
    | some latest =>
      match productIdToPlan latest.product_id with
      | none => .error "Unknown product ID"
      | some plan =>
        let expiresDate := latest.expires_date_ms
        let isActive := dtLt now expiresDate
        match updateUserSubscription db user plan (some latest)
            (if isActive then some expiresDate else none) now with
        | .error e => .error e
        | .ok db1 =>
          .ok (db1,
            { plan := plan
              status := if isActive then "active" else "expired"
              expiresDate := some expiresDate
              productId := some latest.product_id
              transactionId := some latest.transaction_id })

end IosSubscriptionService

/-! ## Mock user service -/

namespace MockUserService

/-- The in-place mutation of `mockUserService.incrementUsage`:
`usage.requests.current += 1; usage.tokens.current += tokens`. -/
def bumpUsage (s : Subscription) (tokens : Nat) : Subscription :=
  { s with
    usage :=
      { s.usage with
        requests := { s.usage.requests with current := s.usage.requests.current + 1 }
        tokens := { s.usage.tokens with current := s.usage.tokens.current + tokens } } }

/-- `mockUserService.incrementUsage`: find the user by id; when found,
bump both counters (the mock keeps no reset logic). -/
def incrementUsage (users : List User) (userId : String) (tokens : Nat) :
    List User :=
  users.map (fun u =>
    if u.userId == userId then
      match u.subscription with
      | none => u
      | some s => { u with subscription := some (bumpUsage s tokens) }
    else u)

end MockUserService


/-! ## Shared store lemmas -/

/-- `find?` by user id over a per-id update that preserves the id. -/
theorem find?_update (uid : String) (f : User → User)
    (hf : ∀ u : User, (f u).userId = u.userId) :
    ∀ l : List User,
      (l.map (fun u => if u.userId == uid then f u else u)).find?
          (fun u => u.userId == uid)
        = (l.find? (fun u => u.userId == uid)).map f
  | [] => rfl
  | u :: l => by
    by_cases h : (u.userId == uid) = true
    · have hfu : ((f u).userId == uid) = true := by rw [hf u]; exact h
      rw [List.map_cons, if_pos h]
      simp only [List.find?_cons, hfu, h, Option.map_some']
    · have h' : (u.userId == uid) = false := eq_false_of_ne_true h
      rw [List.map_cons, if_neg h]
      simp only [List.find?_cons, h']
      exact find?_update uid f hf l

theorem getUserById_setUserSub (db : Db) (uid : String) (t : Subscription) :
    DynamoDBService.getUserById (DynamoDBService.setUserSub db uid t) uid
      = (DynamoDBService.getUserById db uid).map
          (fun u => { u with subscription := some t }) := by
  unfold DynamoDBService.getUserById DynamoDBService.setUserSub
  exact find?_update uid (fun u => { u with subscription := some t }) (fun _ => rfl) db.users

/-- The per-user transformation the `ADD` counter update performs. -/
def addUsageFn (reqInc tokInc : Nat) (u : User) : User :=
  match u.subscription with
  | none => u
  | some s =>
    { u with
      subscription := some
        { s with
          usage :=
            { s.usage with
              requests := { s.usage.requests with
                current := s.usage.requests.current + reqInc }
              tokens := { s.usage.tokens with
                current := s.usage.tokens.current + tokInc } } } }

theorem addUsage_eq_map (db : Db) (uid : String) (reqInc tokInc : Nat) :
    DynamoDBService.addUsage db uid reqInc tokInc
      = { db with
          users := db.users.map (fun u =>
            if u.userId == uid then addUsageFn reqInc tokInc u else u) } := by
  unfold DynamoDBService.addUsage addUsageFn
  rfl

theorem addUsageFn_userId (reqInc tokInc : Nat) (u : User) :
    (addUsageFn reqInc tokInc u).userId = u.userId := by
  unfold addUsageFn
  cases u.subscription <;> rfl

theorem getUserById_addUsage (db : Db) (uid : String) (reqInc tokInc : Nat) :
    DynamoDBService.getUserById (DynamoDBService.addUsage db uid reqInc tokInc) uid
      = (DynamoDBService.getUserById db uid).map (addUsageFn reqInc tokInc) := by
  rw [addUsage_eq_map]
  unfold DynamoDBService.getUserById
  exact find?_update uid (addUsageFn reqInc tokInc) (addUsageFn_userId reqInc tokInc) db.users

theorem setUserSub_setUserSub (db : Db) (uid : String) (t : Subscription) :
    DynamoDBService.setUserSub (DynamoDBService.setUserSub db uid t) uid t
      = DynamoDBService.setUserSub db uid t := by
  unfold DynamoDBService.setUserSub
  simp only [List.map_map]
  have hff :
      ((fun u : User => if u.userId == uid then { u with subscription := some t } else u) ∘
        (fun u : User => if u.userId == uid then { u with subscription := some t } else u))
        = (fun u : User => if u.userId == uid then { u with subscription := some t } else u) := by
    funext u
    by_cases h : (u.userId == uid) = true <;> simp [Function.comp, h]
  rw [hff]

theorem logApiUsage_users (db : Db) (uid p m : String) (tok cost : Nat)
    (now : DateTime) (faults : Faults) :
    (DynamoDBService.logApiUsage db uid p m tok cost now faults).2.users = db.users := by
  unfold DynamoDBService.logApiUsage
  by_cases h : faults.ledgerWriteFails = true <;> simp [h]

theorem logApiUsage_ok (db : Db) (uid p m : String) (tok cost : Nat)
    (now : DateTime) (faults : Faults) :
    (DynamoDBService.logApiUsage db uid p m tok cost now faults).1 = .ok () := by
  unfold DynamoDBService.logApiUsage
  by_cases h : faults.ledgerWriteFails = true <;> simp [h]

/-! ## Sample values used by the concrete witnesses -/

def exNow : DateTime := { year := 2025, month := 5, day := 15, ms := 0 }

def exFuture : DateTime := { year := 2025, month := 6, day := 1, ms := 0 }

def exPast : DateTime := { year := 2025, month := 4, day := 1, ms := 0 }

/-- A free-plan user who has exhausted the 100-request quota. -/
def exCappedSub : Subscription :=
  { plan := .free
    status := .active
    platform := .stripe
    usage :=
      { requests := { current := 100, limit := 100 }
        tokens := { current := 9000, limit := 10000 }
        resetDate := exFuture }
    startDate := none
    endDate := none
    iosReceiptData := none
    stripeSubscriptionId := none
    stripeCustomerId := none }

def exCappedUser : User :=
  { userId := "u-capped", email := "capped@example.com", username := "capped",
    subscription := some exCappedSub }

/-- The same account with `requests.limit = -1` (unlimited). -/
def exUnlimitedSub : Subscription :=
  { exCappedSub with
    usage := { exCappedSub.usage with
      requests := { current := 100, limit := -1 } } }

def exUnlimitedUser : User :=
  { exCappedUser with userId := "u-unlim", subscription := some exUnlimitedSub }

/-! ## C2 — admission decision -/

/-- C2: `canMakeRequest` is false for a missing user or a record without
a subscription; it is true when `now` has passed `usage.resetDate`;
otherwise it is true exactly when `requests.current < requests.limit`
or `requests.limit = -1` (so `current = limit = 100` is denied and
`limit = -1` always permitted); and the `checkSubscription` middleware
turns a false answer for a fetched user into the
`"Usage limit exceeded"` denial. -/
theorem canMakeRequest_admission_decision :
    (∀ now, DynamoDBService.canMakeRequest none now = false) ∧
    (∀ (u : User) (now : DateTime), u.subscription = none →
      DynamoDBService.canMakeRequest (some u) now = false) ∧
    (∀ (u : User) (s : Subscription) (now : DateTime), u.subscription = some s →
      dtLt s.usage.resetDate now = true →
      DynamoDBService.canMakeRequest (some u) now = true) ∧
    (∀ (u : User) (s : Subscription) (now : DateTime), u.subscription = some s →
      dtLt s.usage.resetDate now = false →
      (DynamoDBService.canMakeRequest (some u) now = true ↔
        ((s.usage.requests.current : Int) < s.usage.requests.limit ∨
          s.usage.requests.limit = -1))) ∧
    (∀ (u : User) (s : Subscription) (now : DateTime), u.subscription = some s →
      dtLt s.usage.resetDate now = false →
      s.usage.requests.current = 100 → s.usage.requests.limit = 100 →
      DynamoDBService.canMakeRequest (some u) now = false) ∧
    (∀ (u : User) (s : Subscription) (now : DateTime), u.subscription = some s →
      s.usage.requests.limit = -1 →
      DynamoDBService.canMakeRequest (some u) now = true) ∧
    (∀ (u : User) (now : DateTime),
      DynamoDBService.canMakeRequest (some u) now = false →
      Middleware.checkSubscription (some u) now =
        Middleware.CheckResult.usageLimitExceeded "Usage limit exceeded") := by
  refine ⟨fun _ => rfl, ?_, ?_, ?_, ?_, ?_, ?_⟩
  · intro u now h
    simp [DynamoDBService.canMakeRequest, h]
  · intro u s now hs hr
    simp [DynamoDBService.canMakeRequest, hs, hr]
  · intro u s now hs hr
    simp [DynamoDBService.canMakeRequest, hs, hr]
  · intro u s now hs hr h100 hlim
    simp [DynamoDBService.canMakeRequest, hs, hr, h100, hlim]
  · intro u s now hs hlim
    by_cases hr : dtLt s.usage.resetDate now = true <;>
      simp [DynamoDBService.canMakeRequest, hs, hr, hlim]
  · intro u now h
    simp [Middleware.checkSubscription, h]

/-- Concrete admission instances: the capped account is denied with the
`"Usage limit exceeded"` response; the unlimited account is permitted. -/
theorem canMakeRequest_admission_decision_witness :
    DynamoDBService.canMakeRequest (some exCappedUser) exNow = false ∧
    Middleware.checkSubscription (some exCappedUser) exNow =
      Middleware.CheckResult.usageLimitExceeded "Usage limit exceeded" ∧
    DynamoDBService.canMakeRequest (some exUnlimitedUser) exNow = true := by
  refine ⟨?_, ?_, ?_⟩
  · exact canMakeRequest_admission_decision.2.2.2.2.1 exCappedUser exCappedSub exNow
      rfl (by decide) rfl rfl
  · exact canMakeRequest_admission_decision.2.2.2.2.2.2 exCappedUser exNow
      (canMakeRequest_admission_decision.2.2.2.2.1 exCappedUser exCappedSub exNow
        rfl (by decide) rfl rfl)
  · exact canMakeRequest_admission_decision.2.2.2.2.2.1 exUnlimitedUser exUnlimitedSub exNow
      rfl rfl

/-! ## C3 — plan gating -/

/-- C3: `requireActivePlan` compares plans through the fixed hierarchy
`free(0) < pro(1) < enterprise(2)` and denies `insufficientPlan` when
the user's level is below the required one; a paid (`plan ≠ free`)
account whose status is not `active` is never allowed through — when it
clears the plan-level comparison it is denied with the distinct
`subscriptionExpired` ("renew") reason, and in particular
`plan = enterprise, status = expired` is always denied with
`subscriptionExpired`, never silently granted. -/
theorem requireActivePlan_gating :
    (Middleware.planLevel .free < Middleware.planLevel .pro ∧
      Middleware.planLevel .pro < Middleware.planLevel .enterprise) ∧
    (∀ (minPlan : Plan) (u : User) (s : Subscription), u.subscription = some s →
      Middleware.planLevel s.plan < Middleware.planLevel minPlan →
      Middleware.requireActivePlan minPlan (some u) =
        Middleware.PlanGateResult.insufficientPlan) ∧
    (∀ (minPlan : Plan) (u : User) (s : Subscription), u.subscription = some s →
      Middleware.planLevel minPlan ≤ Middleware.planLevel s.plan →
      s.plan ≠ .free → s.status ≠ .active →
      Middleware.requireActivePlan minPlan (some u) =
        Middleware.PlanGateResult.subscriptionExpired) ∧
    (∀ (minPlan : Plan) (u : User) (s : Subscription) (x : User), u.subscription = some s →
      s.plan ≠ .free → s.status ≠ .active →
      Middleware.requireActivePlan minPlan (some u) ≠
        Middleware.PlanGateResult.allowed x) ∧
    (∀ (minPlan : Plan) (u : User) (s : Subscription), u.subscription = some s →
      s.plan = .enterprise → s.status = .expired →
      Middleware.requireActivePlan minPlan (some u) =
        Middleware.PlanGateResult.subscriptionExpired) := by
  have hexp : ∀ (u : User) (s : Subscription), u.subscription = some s →
      s.status ≠ .active → DynamoDBService.hasActiveSubscription (some u) = false := by
    intro u s hs hst
    simp only [DynamoDBService.hasActiveSubscription, hs]
    simpa using hst
  refine ⟨⟨by decide, by decide⟩, ?_, ?_, ?_, ?_⟩
  · intro minPlan u s hs hlt
    simp [Middleware.requireActivePlan, hs, hlt]
  · intro minPlan u s hs hle hfree hst
    simp [Middleware.requireActivePlan, hs, Nat.not_lt.mpr hle, hexp u s hs hst, hfree]
  · intro minPlan u s x hs hfree hst
    by_cases hlt : Middleware.planLevel s.plan < Middleware.planLevel minPlan
    · simp [Middleware.requireActivePlan, hs, hlt]
    · simp [Middleware.requireActivePlan, hs, hlt, hexp u s hs hst, hfree]
  · intro minPlan u s hs hplan hst
    have hle : Middleware.planLevel minPlan ≤ Middleware.planLevel s.plan := by
      rw [hplan]; cases minPlan <;> simp [Middleware.planLevel]
    have hfree : s.plan ≠ .free := by rw [hplan]; intro h; cases h
    have hst' : s.status ≠ .active := by rw [hst]; intro h; cases h
    simp [Middleware.requireActivePlan, hs, Nat.not_lt.mpr hle, hexp u s hs hst', hfree]

/-- An enterprise account with an expired subscription (gated at the
`pro` level here). -/
def exExpiredEnterpriseUser : User :=
  { userId := "u-expent", email := "expent@example.com", username := "expent",
    subscription := some
      { exCappedSub with plan := .enterprise, status := .expired } }

/-- Concrete plan-gate instances: a free account asking for a
`pro`-gated feature is denied `insufficientPlan`; an expired enterprise
account is denied `subscriptionExpired`. -/
theorem requireActivePlan_gating_witness :
    Middleware.requireActivePlan .pro (some exCappedUser) =
      Middleware.PlanGateResult.insufficientPlan ∧
    Middleware.requireActivePlan .pro (some exExpiredEnterpriseUser) =
      Middleware.PlanGateResult.subscriptionExpired := by
  refine ⟨?_, ?_⟩
  · exact requireActivePlan_gating.2.1 .pro exCappedUser exCappedSub rfl (by decide)
  · exact requireActivePlan_gating.2.2.2.2 .pro exExpiredEnterpriseUser
      { exCappedSub with plan := .enterprise, status := .expired } rfl rfl rfl

/-! ## C5 — creation round-trip -/

/-- C5: for a fresh email, `createUser` succeeds and a following
`getUserByEmail` returns the created record, whose subscription is
`plan = free, status = active`, `requests = {0, 100}`,
`tokens = {0, 10000}` and `resetDate = getNextMonthDate now`, midnight
on the first day of the next calendar month; a duplicate email fails
with the `"User already exists"` error raised by the conditional
write. -/
theorem createUser_round_trip (db : Db) (e un uid : String) (now : DateTime) :
    (db.users.any (fun u => u.email == e) = false →
      DynamoDBService.createUser db e un uid now =
        .ok (DynamoDBService.mkUser uid e un (DynamoDBService.freshSubscription now),
          DynamoDBService.pushUser db
            (DynamoDBService.mkUser uid e un (DynamoDBService.freshSubscription now))) ∧
      DynamoDBService.getUserByEmail
          (DynamoDBService.pushUser db
            (DynamoDBService.mkUser uid e un (DynamoDBService.freshSubscription now))) e
        = some (DynamoDBService.mkUser uid e un (DynamoDBService.freshSubscription now))) ∧
    (DynamoDBService.freshSubscription now).plan = .free ∧
    (DynamoDBService.freshSubscription now).status = .active ∧
    (DynamoDBService.freshSubscription now).usage.requests = { current := 0, limit := 100 } ∧
    (DynamoDBService.freshSubscription now).usage.tokens = { current := 0, limit := 10000 } ∧
    (DynamoDBService.freshSubscription now).usage.resetDate = getNextMonthDate now ∧
    (getNextMonthDate now).day = 1 ∧
    (getNextMonthDate now).ms = 0 ∧
    (getNextMonthDate now).year * 12 + (getNextMonthDate now).month
      = now.year * 12 + now.month + 1 ∧
    (db.users.any (fun u => u.email == e) = true →
      DynamoDBService.createUser db e un uid now = .error "User already exists") := by
  refine ⟨?_, rfl, rfl, rfl, rfl, rfl, ?_, ?_, ?_, ?_⟩
  · intro hfree
    constructor
    · simp [DynamoDBService.createUser, hfree]
    · simp [DynamoDBService.getUserByEmail, DynamoDBService.pushUser,
        DynamoDBService.mkUser, List.find?_cons]
  · unfold getNextMonthDate
    by_cases h : now.month + 1 ≥ 12 <;> simp [h]
  · unfold getNextMonthDate
    by_cases h : now.month + 1 ≥ 12 <;> simp [h]
  · unfold getNextMonthDate
    by_cases h : now.month + 1 ≥ 12 <;> simp [h] <;> omega
  · intro hdup
    simp [DynamoDBService.createUser, hdup]

/-- Concrete round-trip on the empty store. -/
theorem createUser_round_trip_witness :
    (DynamoDBService.createUser { users := [], usageTable := [] }
        "new@example.com" "newuser" "u-new" exNow =
      .ok (DynamoDBService.mkUser "u-new" "new@example.com" "newuser"
            (DynamoDBService.freshSubscription exNow),
        DynamoDBService.pushUser { users := [], usageTable := [] }
          (DynamoDBService.mkUser "u-new" "new@example.com" "newuser"
            (DynamoDBService.freshSubscription exNow)))) ∧
    DynamoDBService.getUserByEmail
        (DynamoDBService.pushUser { users := [], usageTable := [] }
          (DynamoDBService.mkUser "u-new" "new@example.com" "newuser"
            (DynamoDBService.freshSubscription exNow))) "new@example.com"
      = some (DynamoDBService.mkUser "u-new" "new@example.com" "newuser"
          (DynamoDBService.freshSubscription exNow)) ∧
    (getNextMonthDate exNow).day = 1 := by
  have h := createUser_round_trip { users := [], usageTable := [] }
    "new@example.com" "newuser" "u-new" exNow
  exact ⟨(h.1 rfl).1, (h.1 rfl).2, h.2.2.2.2.2.2.1⟩

/-! ## C4 — reset before increment -/

theorem getUserById_users_congr (db1 db2 : Db) (uid : String)
    (h : db1.users = db2.users) :
    DynamoDBService.getUserById db1 uid = DynamoDBService.getUserById db2 uid := by
  unfold DynamoDBService.getUserById
  rw [h]

/-- Post-state of `incrementUsage`, shared by several theorems: when
the reset boundary has passed the deltas land on zeroed counters with
`resetDate` advanced, otherwise on the old counters with `resetDate`
untouched. -/
theorem incrementUsage_post_subscription
    (db : Db) (uid : String) (u : User) (s : Subscription) (tok : Nat)
    (now : DateTime) (faults : Faults)
    (hfind : DynamoDBService.getUserById db uid = some u)
    (hsub : u.subscription = some s)
    (hcf : faults.counterWriteFails = false) :
    ((DynamoDBService.getUserById
        (DynamoDBService.incrementUsage db uid tok now faults).2 uid).bind
      (fun v => v.subscription))
      = some (if dtLt s.usage.resetDate now then
          { s with usage :=
              { s.usage with
                requests := { s.usage.requests with current := 0 + 1 }
                tokens := { s.usage.tokens with current := 0 + tok }
                resetDate := getNextMonthDate now } }
        else
          { s with usage :=
              { s.usage with
                requests := { s.usage.requests with current := s.usage.requests.current + 1 }
                tokens := { s.usage.tokens with current := s.usage.tokens.current + tok } } }) := by
  cases hreset : dtLt s.usage.resetDate now with
  | true =>
    simp only [DynamoDBService.incrementUsage, hfind, hsub, hcf, hreset, if_true,
      Bool.false_eq_true, if_false]
    rw [getUserById_users_congr _ _ uid (logApiUsage_users _ _ _ _ _ _ _ _),
      getUserById_addUsage, getUserById_setUserSub, hfind]
    simp [addUsageFn, hreset]
  | false =>
    simp only [DynamoDBService.incrementUsage, hfind, hsub, hcf, hreset,
      Bool.false_eq_true, if_false]
    rw [getUserById_users_congr _ _ uid (logApiUsage_users _ _ _ _ _ _ _ _),
      getUserById_addUsage, hfind]
    simp [addUsageFn, hsub, hreset]

/-- C4: on an existing user, `incrementUsage` first zeroes both
counters and advances `resetDate` to `getNextMonthDate now` when `now`
has passed the stored `resetDate` — so the `+1`/`+tokensUsed` deltas
land on the zeroed counters — and performs no reset otherwise (counters
get the deltas on top of their old values and `resetDate` is
untouched); `getNextMonthDate` is midnight on the first day of the
following calendar month. -/
theorem incrementUsage_reset_before_increment
    (db : Db) (uid : String) (u : User) (s : Subscription) (tok : Nat)
    (now : DateTime) (faults : Faults)
    (hfind : DynamoDBService.getUserById db uid = some u)
    (hsub : u.subscription = some s)
    (hcf : faults.counterWriteFails = false) :
    ((DynamoDBService.getUserById
        (DynamoDBService.incrementUsage db uid tok now faults).2 uid).bind
      (fun v => v.subscription))
      = some (if dtLt s.usage.resetDate now then
          { s with usage :=
              { s.usage with
                requests := { s.usage.requests with current := 0 + 1 }
                tokens := { s.usage.tokens with current := 0 + tok }
                resetDate := getNextMonthDate now } }
        else
          { s with usage :=
              { s.usage with
                requests := { s.usage.requests with current := s.usage.requests.current + 1 }
                tokens := { s.usage.tokens with current := s.usage.tokens.current + tok } } }) ∧
    (getNextMonthDate now).day = 1 ∧
    (getNextMonthDate now).ms = 0 ∧
    (getNextMonthDate now).year * 12 + (getNextMonthDate now).month
      = now.year * 12 + now.month + 1 := by
  refine ⟨incrementUsage_post_subscription db uid u s tok now faults hfind hsub hcf,
    ?_, ?_, ?_⟩
  · unfold getNextMonthDate
    by_cases h : now.month + 1 ≥ 12 <;> simp [h]
  · unfold getNextMonthDate
    by_cases h : now.month + 1 ≥ 12 <;> simp [h]
  · unfold getNextMonthDate
    by_cases h : now.month + 1 ≥ 12 <;> simp [h] <;> omega

def c4Db : Db := { users := [exCappedUser], usageTable := [] }

/-- Concrete increment with no reset pending: the deltas land on top of
the stored counters and `resetDate` is untouched. -/
theorem incrementUsage_reset_before_increment_witness :
    ((DynamoDBService.getUserById
        (DynamoDBService.incrementUsage c4Db "u-capped" 7 exNow
          { counterWriteFails := false, ledgerWriteFails := false }).2 "u-capped").bind
      (fun v => v.subscription))
      = some (if dtLt exCappedSub.usage.resetDate exNow then
          { exCappedSub with usage :=
              { exCappedSub.usage with
                requests := { exCappedSub.usage.requests with current := 0 + 1 }
                tokens := { exCappedSub.usage.tokens with current := 0 + 7 }
                resetDate := getNextMonthDate exNow } }
        else
          { exCappedSub with usage :=
              { exCappedSub.usage with
                requests := { exCappedSub.usage.requests with
                  current := exCappedSub.usage.requests.current + 1 }
                tokens := { exCappedSub.usage.tokens with
                  current := exCappedSub.usage.tokens.current + 7 } } }) ∧
    (getNextMonthDate exNow).day = 1 := by
  have h := incrementUsage_reset_before_increment c4Db "u-capped" exCappedUser
    exCappedSub 7 exNow { counterWriteFails := false, ledgerWriteFails := false }
    rfl rfl rfl
  exact ⟨h.1, h.2.1⟩

/-! ## C8 — ledger write failures are non-fatal -/

/-- C8: `logApiUsage` never surfaces an error (the put failure is
logged and swallowed); consequently the observable outcome of
`incrementUsage` — its result and the users-table state — is identical
whether the ledger write fails or succeeds; by contrast a failure of
the counter update makes `incrementUsage` itself return the error. -/
theorem logApiUsage_nonfatal :
    (∀ (db : Db) (uid p m : String) (tok cost : Nat) (now : DateTime) (faults : Faults),
      (DynamoDBService.logApiUsage db uid p m tok cost now faults).1 = .ok ()) ∧
    (∀ (db : Db) (uid : String) (tok : Nat) (now : DateTime) (c b1 b2 : Bool),
      (DynamoDBService.incrementUsage db uid tok now
          { counterWriteFails := c, ledgerWriteFails := b1 }).1 =
        (DynamoDBService.incrementUsage db uid tok now
          { counterWriteFails := c, ledgerWriteFails := b2 }).1 ∧
      (DynamoDBService.incrementUsage db uid tok now
          { counterWriteFails := c, ledgerWriteFails := b1 }).2.users =
        (DynamoDBService.incrementUsage db uid tok now
          { counterWriteFails := c, ledgerWriteFails := b2 }).2.users) ∧
    (∀ (db : Db) (uid : String) (u : User) (s : Subscription) (tok : Nat)
      (now : DateTime) (b : Bool),
      DynamoDBService.getUserById db uid = some u →
      u.subscription = some s →
      (DynamoDBService.incrementUsage db uid tok now
          { counterWriteFails := true, ledgerWriteFails := b }).1 =
        .error "StoreUnavailable") := by
  refine ⟨?_, ?_, ?_⟩
  · exact logApiUsage_ok
  · intro db uid tok now c b1 b2
    cases hfind : DynamoDBService.getUserById db uid with
    | none => simp [DynamoDBService.incrementUsage, hfind]
    | some u =>
      cases hsub : u.subscription with
      | none => simp [DynamoDBService.incrementUsage, hfind, hsub]
      | some s =>
        cases c with
        | true => simp [DynamoDBService.incrementUsage, hfind, hsub]
        | false =>
          simp only [DynamoDBService.incrementUsage, hfind, hsub,
            Bool.false_eq_true, if_false]
          exact ⟨by trivial, by rw [logApiUsage_users, logApiUsage_users]⟩
  · intro db uid u s tok now b hfind hsub
    simp [DynamoDBService.incrementUsage, hfind, hsub]

/-- Concrete instance: with the capped user in store, a ledger-write
failure leaves the increment's outcome unchanged, while a counter-write
failure surfaces the store error. -/
theorem logApiUsage_nonfatal_witness :
    (DynamoDBService.logApiUsage c4Db "u-capped" "openai" "gpt-4" 7 0 exNow
        { counterWriteFails := false, ledgerWriteFails := true }).1 = .ok () ∧
    (DynamoDBService.incrementUsage c4Db "u-capped" 7 exNow
        { counterWriteFails := false, ledgerWriteFails := true }).1 =
      (DynamoDBService.incrementUsage c4Db "u-capped" 7 exNow
        { counterWriteFails := false, ledgerWriteFails := false }).1 ∧
    (DynamoDBService.incrementUsage c4Db "u-capped" 7 exNow
        { counterWriteFails := true, ledgerWriteFails := false }).1 =
      .error "StoreUnavailable" := by
  refine ⟨?_, ?_, ?_⟩
  · exact logApiUsage_nonfatal.1 c4Db "u-capped" "openai" "gpt-4" 7 0 exNow
      { counterWriteFails := false, ledgerWriteFails := true }
  · exact (logApiUsage_nonfatal.2.1 c4Db "u-capped" 7 exNow false true false).1
  · exact logApiUsage_nonfatal.2.2 c4Db "u-capped" exCappedUser exCappedSub 7 exNow
      false rfl rfl

/-! ## C9 — increment deltas -/

/-- The per-user transformation of the mock increment. -/
def mockBumpFn (tokens : Nat) (u : User) : User :=
  match u.subscription with
  | none => u
  | some s => { u with subscription := some (MockUserService.bumpUsage s tokens) }

theorem mock_incrementUsage_eq_map (users : List User) (uid : String) (tokens : Nat) :
    MockUserService.incrementUsage users uid tokens
      = users.map (fun u => if u.userId == uid then mockBumpFn tokens u else u) := rfl

theorem mockBumpFn_userId (tokens : Nat) (u : User) :
    (mockBumpFn tokens u).userId = u.userId := by
  unfold mockBumpFn
  cases u.subscription <;> rfl

def c9Sub : Subscription :=
  { exCappedSub with
    usage :=
      { requests := { current := 5, limit := 100 }
        tokens := { current := 500, limit := 10000 }
        resetDate := exPast } }

def c9User : User :=
  { userId := "u-reset", email := "reset@example.com", username := "reset",
    subscription := some c9Sub }

def c9Db : Db := { users := [c9User], usageTable := [] }

/-- C9 as stated is false: because `incrementUsage` performs the lazy
monthly reset first when `now` has passed `resetDate`, a call on a user
with `requests.current = 5, tokens.current = 500` leaves
`requests.current = 1` (not `5 + 1`) and `tokens.current = 0` — the
token counter decreased. -/
theorem incrementUsage_exact_deltas_counterexample :
    ((DynamoDBService.getUserById
        (DynamoDBService.incrementUsage c9Db "u-reset" 0 exNow
          { counterWriteFails := false, ledgerWriteFails := false }).2 "u-reset").bind
      (fun v => v.subscription)).map
        (fun s2 => (s2.usage.requests.current, s2.usage.tokens.current))
      = some (1, 0) ∧
    c9Sub.usage.requests.current = 5 ∧
    c9Sub.usage.tokens.current = 500 ∧
    (1 : Nat) ≠ 5 + 1 ∧
    (0 : Nat) < 500 := by
  exact ⟨rfl, rfl, rfl, by decide, by decide⟩

/-- C9 amended: when the reset boundary has not passed, a call to
`incrementUsage` adds exactly `1` to `requests.current` and exactly
`tokensUsed` to `tokens.current` and decreases neither counter; when
the boundary has passed, the same fixed deltas are applied to the
freshly zeroed counters. The request delta is `1` in every case (not
caller-chosen). The mock service applies the exact deltas
unconditionally. -/
theorem incrementUsage_exact_deltas :
    (∀ (db : Db) (uid : String) (u : User) (s : Subscription) (tok : Nat)
        (now : DateTime),
      DynamoDBService.getUserById db uid = some u →
      u.subscription = some s →
      dtLt s.usage.resetDate now = false →
      ((DynamoDBService.getUserById
          (DynamoDBService.incrementUsage db uid tok now
            { counterWriteFails := false, ledgerWriteFails := false }).2 uid).bind
        (fun v => v.subscription)).map
          (fun s2 => (s2.usage.requests.current, s2.usage.tokens.current))
        = some (s.usage.requests.current + 1, s.usage.tokens.current + tok) ∧
      s.usage.requests.current ≤ s.usage.requests.current + 1 ∧
      s.usage.tokens.current ≤ s.usage.tokens.current + tok) ∧
    (∀ (db : Db) (uid : String) (u : User) (s : Subscription) (tok : Nat)
        (now : DateTime),
      DynamoDBService.getUserById db uid = some u →
      u.subscription = some s →
      dtLt s.usage.resetDate now = true →
      ((DynamoDBService.getUserById
          (DynamoDBService.incrementUsage db uid tok now
            { counterWriteFails := false, ledgerWriteFails := false }).2 uid).bind
        (fun v => v.subscription)).map
          (fun s2 => (s2.usage.requests.current, s2.usage.tokens.current))
        = some (0 + 1, 0 + tok)) ∧
    (∀ (users : List User) (uid : String) (u : User) (s : Subscription) (tok : Nat),
      users.find? (fun v => v.userId == uid) = some u →
      u.subscription = some s →
      (((MockUserService.incrementUsage users uid tok).find?
          (fun v => v.userId == uid)).bind (fun v => v.subscription)).map
        (fun s2 => (s2.usage.requests.current, s2.usage.tokens.current))
        = some (s.usage.requests.current + 1, s.usage.tokens.current + tok)) := by
  refine ⟨?_, ?_, ?_⟩
  · intro db uid u s tok now hfind hsub hreset
    have h := incrementUsage_post_subscription db uid u s tok now
      { counterWriteFails := false, ledgerWriteFails := false } hfind hsub rfl
    rw [hreset] at h
    simp only [if_false, Bool.false_eq_true] at h
    rw [h]
    exact ⟨rfl, Nat.le_add_right _ _, Nat.le_add_right _ _⟩
  · intro db uid u s tok now hfind hsub hreset
    have h := incrementUsage_post_subscription db uid u s tok now
      { counterWriteFails := false, ledgerWriteFails := false } hfind hsub rfl
    rw [hreset] at h
    simp only [if_true] at h
    rw [h]
    rfl
  · intro users uid u s tok hfind hsub
    rw [mock_incrementUsage_eq_map,
      find?_update uid (mockBumpFn tok) (mockBumpFn_userId tok) users, hfind]
    simp [mockBumpFn, hsub, MockUserService.bumpUsage]

/-- Concrete instances of the amended deltas: a no-reset increment and
a mock increment, both adding exactly `(1, 7)`. -/
theorem incrementUsage_exact_deltas_witness :
    ((DynamoDBService.getUserById
        (DynamoDBService.incrementUsage c4Db "u-capped" 7 exNow
          { counterWriteFails := false, ledgerWriteFails := false }).2 "u-capped").bind
      (fun v => v.subscription)).map
        (fun s2 => (s2.usage.requests.current, s2.usage.tokens.current))
      = some (exCappedSub.usage.requests.current + 1,
          exCappedSub.usage.tokens.current + 7) ∧
    (((MockUserService.incrementUsage [exCappedUser] "u-capped" 7).find?
        (fun v => v.userId == "u-capped")).bind (fun v => v.subscription)).map
      (fun s2 => (s2.usage.requests.current, s2.usage.tokens.current))
      = some (exCappedSub.usage.requests.current + 1,
          exCappedSub.usage.tokens.current + 7) := by
  refine ⟨?_, ?_⟩
  · exact (incrementUsage_exact_deltas.1 c4Db "u-capped" exCappedUser exCappedSub 7
      exNow rfl rfl (by decide)).1
  · exact incrementUsage_exact_deltas.2.2 [exCappedUser] "u-capped" exCappedUser
      exCappedSub 7 rfl rfl

/-! ## C6 — webhook idempotence -/

theorem applySubscriptionChange_idem (e : SubscriptionService.StripeEvent)
    (s : Subscription) :
    SubscriptionService.applySubscriptionChange e
        (SubscriptionService.applySubscriptionChange e s)
      = SubscriptionService.applySubscriptionChange e s := rfl

theorem handleSubscriptionChange_idem (db db1 : Db)
    (e : SubscriptionService.StripeEvent)
    (h : SubscriptionService.handleSubscriptionChange db e = .ok db1) :
    SubscriptionService.handleSubscriptionChange db1 e = .ok db1 := by
  unfold SubscriptionService.handleSubscriptionChange at h ⊢
  cases hfind : DynamoDBService.getUserById db e.userId with
  | none =>
    simp only [hfind] at h
    injection h with h1
    subst h1
    simp only [hfind]
  | some user =>
    simp only [hfind] at h
    cases hsub : user.subscription with
    | none =>
      simp only [hsub] at h
      exact (Except.noConfusion h)
    | some s =>
      simp only [hsub] at h
      unfold DynamoDBService.updateUserSubscription at h
      simp only [hfind] at h
      injection h with h1
      subst h1
      have hfind1 : DynamoDBService.getUserById
          (DynamoDBService.setUserSub db e.userId
            (SubscriptionService.applySubscriptionChange e s)) e.userId
          = some ({ user with subscription := some (SubscriptionService.applySubscriptionChange e s) }) := by
        rw [getUserById_setUserSub, hfind]
        rfl
      simp only [hfind1, applySubscriptionChange_idem]
      unfold DynamoDBService.updateUserSubscription
      simp only [hfind1]
      rw [setUserSub_setUserSub]

theorem handlePaymentSuccess_idem (db db1 : Db)
    (e : SubscriptionService.StripeEvent)
    (h : SubscriptionService.handlePaymentSuccess db e = .ok db1) :
    SubscriptionService.handlePaymentSuccess db1 e = .ok db1 := by
  unfold SubscriptionService.handlePaymentSuccess at h ⊢
  cases hfind : DynamoDBService.getUserById db e.userId with
  | none =>
    simp only [hfind] at h
    injection h with h1
    subst h1
    simp only [hfind]
  | some user =>
    simp only [hfind] at h
    cases hsub : user.subscription with
    | none =>
      simp only [hsub] at h
      exact (Except.noConfusion h)
    | some s =>
      simp only [hsub] at h
      unfold DynamoDBService.updateUserSubscription at h
      simp only [hfind] at h
      injection h with h1
      subst h1
      have hfind1 : DynamoDBService.getUserById
          (DynamoDBService.setUserSub db e.userId { s with status := .active }) e.userId
          = some ({ user with subscription := some { s with status := .active } }) := by
        rw [getUserById_setUserSub, hfind]
        rfl
      simp only [hfind1]
      unfold DynamoDBService.updateUserSubscription
      simp only [hfind1]
      rw [setUserSub_setUserSub]

theorem handlePaymentFailed_idem (db db1 : Db)
    (e : SubscriptionService.StripeEvent)
    (h : SubscriptionService.handlePaymentFailed db e = .ok db1) :
    SubscriptionService.handlePaymentFailed db1 e = .ok db1 := by
  unfold SubscriptionService.handlePaymentFailed at h ⊢
  cases hfind : DynamoDBService.getUserById db e.userId with
  | none =>
    simp only [hfind] at h
    injection h with h1
    subst h1
    simp only [hfind]
  | some user =>
    simp only [hfind] at h
    cases hsub : user.subscription with
    | none =>
      simp only [hsub] at h
      exact (Except.noConfusion h)
    | some s =>
      simp only [hsub] at h
      unfold DynamoDBService.updateUserSubscription at h
      simp only [hfind] at h
      injection h with h1
      subst h1
      have hfind1 : DynamoDBService.getUserById
          (DynamoDBService.setUserSub db e.userId { s with status := .past_due }) e.userId
          = some ({ user with subscription := some { s with status := .past_due } }) := by
        rw [getUserById_setUserSub, hfind]
        rfl
      simp only [hfind1]
      unfold DynamoDBService.updateUserSubscription
      simp only [hfind1]
      rw [setUserSub_setUserSub]

/-- C6: the Stripe-style webhook handlers are idempotent: whenever
`handleWebhook` applied to a state succeeds, applying the identical
event to the resulting state succeeds and leaves it unchanged — the
second delivery does not double-apply any change to plan, status,
limits, end date, or usage counters. -/
theorem handleWebhook_idempotent (cfg : Bool) (db : Db)
    (e : SubscriptionService.StripeEvent) (db1 : Db)
    (h : SubscriptionService.handleWebhook cfg db e = .ok db1) :
    SubscriptionService.handleWebhook cfg db1 e = .ok db1 := by
  unfold SubscriptionService.handleWebhook at h ⊢
  cases cfg with
  | false =>
    simp only [Bool.false_eq_true, not_false_eq_true, if_true] at h ⊢
  | true =>
    simp only [not_true_eq_false, if_false] at h ⊢
    cases htype : e.type with
    | subscriptionUpdated =>
      simp only [htype] at h ⊢
      exact handleSubscriptionChange_idem db db1 e h
    | subscriptionDeleted =>
      simp only [htype] at h ⊢
      exact handleSubscriptionChange_idem db db1 e h
    | paymentSucceeded =>
      simp only [htype] at h ⊢
      exact handlePaymentSuccess_idem db db1 e h
    | paymentFailed =>
      simp only [htype] at h ⊢
      exact handlePaymentFailed_idem db db1 e h
    | other =>
      simp only [htype] at h ⊢

def c6Event : SubscriptionService.StripeEvent :=
  { type := .subscriptionUpdated, userId := "u-capped", planMeta := some .pro,
    status := "active", currentPeriodEnd := exFuture }

def c6Db1 : Db :=
  DynamoDBService.setUserSub c4Db "u-capped"
    (SubscriptionService.applySubscriptionChange c6Event exCappedSub)

/-- Concrete replay: delivering the same subscription-updated event
twice yields the state reached after the first delivery. -/
theorem handleWebhook_idempotent_witness :
    SubscriptionService.handleWebhook true c4Db c6Event = .ok c6Db1 ∧
    SubscriptionService.handleWebhook true c6Db1 c6Event = .ok c6Db1 := by
  have h0 : SubscriptionService.handleWebhook true c4Db c6Event = .ok c6Db1 := rfl
  exact ⟨h0, handleWebhook_idempotent true c4Db c6Event c6Db1 h0⟩

/-! ## C7 — receipt selection -/

theorem foldl_latest_spec :
    ∀ (rest : List IosSubscriptionService.InAppPurchase)
      (p : IosSubscriptionService.InAppPurchase),
      (List.foldl
          (fun acc q => if dtLt acc.expires_date_ms q.expires_date_ms then q else acc)
          p rest = p ∨
        List.foldl
          (fun acc q => if dtLt acc.expires_date_ms q.expires_date_ms then q else acc)
          p rest ∈ rest) ∧
      dtLt (List.foldl
          (fun acc q => if dtLt acc.expires_date_ms q.expires_date_ms then q else acc)
          p rest).expires_date_ms p.expires_date_ms = false ∧
      (∀ q ∈ rest,
        dtLt (List.foldl
            (fun acc q => if dtLt acc.expires_date_ms q.expires_date_ms then q else acc)
            p rest).expires_date_ms q.expires_date_ms = false)
  | [], p => ⟨Or.inl rfl, dtLt_irrefl _, by intro q hq; cases hq⟩
  | q :: rest, p => by
    simp only [List.foldl_cons]
    by_cases hpq : dtLt p.expires_date_ms q.expires_date_ms = true
    · rw [if_pos hpq]
      obtain ⟨hmem, hge, hall⟩ := foldl_latest_spec rest q
      refine ⟨?_, ?_, ?_⟩
      · rcases hmem with h | h
        · exact Or.inr (by rw [h]; exact List.mem_cons_self q rest)
        · exact Or.inr (List.mem_cons_of_mem q h)
      · cases hb : dtLt (List.foldl
            (fun acc q => if dtLt acc.expires_date_ms q.expires_date_ms then q else acc)
            q rest).expires_date_ms p.expires_date_ms with
        | false => rfl
        | true =>
          have h2 := dtLt_trans hb hpq
          rw [hge] at h2
          exact Bool.noConfusion h2
      · intro x hx
        rcases List.mem_cons.mp hx with rfl | hx'
        · exact hge
        · exact hall x hx'
    · rw [if_neg hpq]
      obtain ⟨hmem, hge, hall⟩ := foldl_latest_spec rest p
      have hpq' : dtLt p.expires_date_ms q.expires_date_ms = false :=
        eq_false_of_ne_true hpq
      refine ⟨?_, hge, ?_⟩
      · rcases hmem with h | h
        · exact Or.inl h
        · exact Or.inr (List.mem_cons_of_mem q h)
      · intro x hx
        rcases List.mem_cons.mp hx with rfl | hx'
        · rcases (dtLt_false_iff p.expires_date_ms x.expires_date_ms).mp hpq' with hqp | heq
          · cases hb : dtLt (List.foldl
                (fun acc q => if dtLt acc.expires_date_ms q.expires_date_ms then q else acc)
                p rest).expires_date_ms x.expires_date_ms with
            | false => rfl
            | true =>
              have h2 := dtLt_trans hb hqp
              rw [hge] at h2
              exact Bool.noConfusion h2
          · rw [← heq]
            exact hge
        · exact hall x hx'

/-- C7: when `getLatestActiveSubscription` selects a purchase, that
purchase belongs to the sublist whose product ids map to known plans
and its expiry is not exceeded by any purchase of that sublist; it
selects nothing exactly when that sublist is empty (no purchases, or no
known product id); in that case `processSubscription` stores a
free-plan subscription with no receipt metadata and reports
`plan = free, status = active` (rather than failing or leaving the
entitlement unchanged). -/
theorem getLatestActiveSubscription_spec :
    (∀ (l : List IosSubscriptionService.InAppPurchase)
        (p : IosSubscriptionService.InAppPurchase),
      IosSubscriptionService.getLatestActiveSubscription l = some p →
      p ∈ l.filter (fun q => (IosSubscriptionService.productIdToPlan q.product_id).isSome) ∧
      (l.filter (fun q =>
          (IosSubscriptionService.productIdToPlan q.product_id).isSome)).all
        (fun q => !dtLt p.expires_date_ms q.expires_date_ms) = true) ∧
    (∀ l : List IosSubscriptionService.InAppPurchase,
      IosSubscriptionService.getLatestActiveSubscription l = none ↔
      l.filter (fun q =>
        (IosSubscriptionService.productIdToPlan q.product_id).isSome) = []) ∧
    (∀ (db : Db) (uid : String) (user : User)
        (purchases : List IosSubscriptionService.InAppPurchase) (now : DateTime),
      DynamoDBService.getUserById db uid = some user →
      IosSubscriptionService.getLatestActiveSubscription purchases = none →
      IosSubscriptionService.processSubscription db uid purchases now =
        .ok (DynamoDBService.setUserSub db user.userId
            (IosSubscriptionService.buildIosSubscription user .free none none now),
          { plan := .free, status := "active", expiresDate := none,
            productId := none, transactionId := none }) ∧
      (IosSubscriptionService.buildIosSubscription user .free none none now).plan = .free ∧
      (IosSubscriptionService.buildIosSubscription user .free none none now).iosReceiptData
        = none ∧
      (IosSubscriptionService.buildIosSubscription user .free none none now).status
        = .active) := by
  refine ⟨?_, ?_, ?_⟩
  · intro l p hsel
    unfold IosSubscriptionService.getLatestActiveSubscription at hsel
    cases hfilter : l.filter (fun q =>
        (IosSubscriptionService.productIdToPlan q.product_id).isSome) with
    | nil =>
      rw [hfilter] at hsel
      exact (Option.noConfusion hsel)
    | cons a rest =>
      rw [hfilter] at hsel
      unfold IosSubscriptionService.selectLatest at hsel
      injection hsel with hp
      obtain ⟨hmem, hge, hall⟩ := foldl_latest_spec rest a
      subst hp
      constructor
      · rcases hmem with h | h
        · rw [h]; exact List.mem_cons_self a rest
        · exact List.mem_cons_of_mem a h
      · rw [List.all_eq_true]
        intro x hx
        rcases List.mem_cons.mp hx with rfl | hx'
        · simp [hge]
        · simp [hall x hx']
  · intro l
    unfold IosSubscriptionService.getLatestActiveSubscription
    cases hfilter : l.filter (fun q =>
        (IosSubscriptionService.productIdToPlan q.product_id).isSome) with
    | nil => simp [IosSubscriptionService.selectLatest]
    | cons a rest => simp [IosSubscriptionService.selectLatest]
  · intro db uid user purchases now hfind hsel
    have hbeq : (user.userId == uid) = true := by
      have := List.find?_some hfind
      exact this
    have huid : user.userId = uid := by
      exact eq_of_beq hbeq
    refine ⟨?_, rfl, rfl, rfl⟩
    unfold IosSubscriptionService.processSubscription
    simp only [hfind, hsel]
    unfold IosSubscriptionService.updateUserSubscription
    unfold DynamoDBService.updateUserSubscription
    rw [huid, hfind]

def c7P1 : IosSubscriptionService.InAppPurchase :=
  { product_id := "com.yourapp.pro.monthly", transaction_id := "t1",
    original_transaction_id := "t1", purchase_date_ms := exPast,
    expires_date_ms := { year := 2025, month := 7, day := 1, ms := 0 } }

/-- A purchase whose product id maps to no known plan (ignored by the
selection even though it expires last). -/
def c7P2 : IosSubscriptionService.InAppPurchase :=
  { product_id := "com.other.unrelated", transaction_id := "t2",
    original_transaction_id := "t2", purchase_date_ms := exPast,
    expires_date_ms := { year := 2026, month := 7, day := 1, ms := 0 } }

def c7P3 : IosSubscriptionService.InAppPurchase :=
  { product_id := "com.yourapp.pro.yearly", transaction_id := "t3",
    original_transaction_id := "t3", purchase_date_ms := exPast,
    expires_date_ms := { year := 2025, month := 9, day := 1, ms := 0 } }

/-- Concrete selection: among the known-plan purchases the
latest-expiring one is chosen; an empty purchase list downgrades the
account to the free plan with no receipt metadata. -/
theorem getLatestActiveSubscription_spec_witness :
    (c7P3 ∈ ([c7P1, c7P2, c7P3].filter (fun q =>
        (IosSubscriptionService.productIdToPlan q.product_id).isSome)) ∧
      (([c7P1, c7P2, c7P3].filter (fun q =>
          (IosSubscriptionService.productIdToPlan q.product_id).isSome)).all
        (fun q => !dtLt c7P3.expires_date_ms q.expires_date_ms)) = true) ∧
    IosSubscriptionService.processSubscription c4Db "u-capped" [] exNow =
      .ok (DynamoDBService.setUserSub c4Db exCappedUser.userId
          (IosSubscriptionService.buildIosSubscription exCappedUser .free none none exNow),
        { plan := .free, status := "active", expiresDate := none,
          productId := none, transactionId := none }) := by
  refine ⟨getLatestActiveSubscription_spec.1 [c7P1, c7P2, c7P3] c7P3 rfl,
    (getLatestActiveSubscription_spec.2.2 c4Db "u-capped" exCappedUser [] exNow
      rfl rfl).1⟩

/-! ## C10 — iOS update frame -/

/-- C10: the subscription object written by the iOS reconciliation
carries over the stored `requests.current`, `tokens.current`,
`resetDate` and `startDate` unchanged whenever a prior subscription
exists (`startDate` keeps its stored value, `now` being only the
fallback), while `plan`, `status`-relevant fields, `platform`, the
per-plan limits, the receipt metadata and `endDate` are replaced; with
no prior subscription the defaults are `0` counters, next-month
`resetDate` and `startDate = now`. -/
theorem buildIosSubscription_frame :
    (∀ (user : User) (s : Subscription) (plan : Plan)
        (rec : Option IosSubscriptionService.InAppPurchase)
        (exp : Option DateTime) (now : DateTime),
      user.subscription = some s →
      (IosSubscriptionService.buildIosSubscription user plan rec exp now).usage.requests.current
        = s.usage.requests.current ∧
      (IosSubscriptionService.buildIosSubscription user plan rec exp now).usage.tokens.current
        = s.usage.tokens.current ∧
      (IosSubscriptionService.buildIosSubscription user plan rec exp now).usage.resetDate
        = s.usage.resetDate ∧
      (IosSubscriptionService.buildIosSubscription user plan rec exp now).startDate
        = some (s.startDate.getD now) ∧
      (IosSubscriptionService.buildIosSubscription user plan rec exp now).plan = plan ∧
      (IosSubscriptionService.buildIosSubscription user plan rec exp now).platform
        = Platform.ios ∧
      (IosSubscriptionService.buildIosSubscription user plan rec exp now).usage.requests.limit
        = planRequests plan ∧
      (IosSubscriptionService.buildIosSubscription user plan rec exp now).usage.tokens.limit
        = planTokens plan ∧
      (IosSubscriptionService.buildIosSubscription user plan rec exp now).endDate = exp ∧
      (IosSubscriptionService.buildIosSubscription user plan rec exp now).iosReceiptData
        = rec.map (fun r =>
            { productId := r.product_id
              transactionId := r.transaction_id
              originalTransactionId := r.original_transaction_id
              purchaseDate := r.purchase_date_ms
              expiresDate := exp })) ∧
    (∀ (user : User) (plan : Plan)
        (rec : Option IosSubscriptionService.InAppPurchase)
        (exp : Option DateTime) (now : DateTime),
      user.subscription = none →
      (IosSubscriptionService.buildIosSubscription user plan rec exp now).usage.requests.current
        = 0 ∧
      (IosSubscriptionService.buildIosSubscription user plan rec exp now).usage.tokens.current
        = 0 ∧
      (IosSubscriptionService.buildIosSubscription user plan rec exp now).usage.resetDate
        = getNextMonthDate now ∧
      (IosSubscriptionService.buildIosSubscription user plan rec exp now).startDate
        = some now) := by
  constructor
  · intro user s plan rec exp now hsub
    refine ⟨?_, ?_, ?_, ?_, rfl, rfl, rfl, rfl, rfl, rfl⟩ <;>
      simp [IosSubscriptionService.buildIosSubscription, hsub]
  · intro user plan rec exp now hsub
    refine ⟨?_, ?_, ?_, ?_⟩ <;>
      simp [IosSubscriptionService.buildIosSubscription, hsub]

/-- Concrete frame instance: reconciling the capped stripe-platform
user onto the pro plan keeps the counters, `resetDate` and `startDate`
of the stored record. -/
theorem buildIosSubscription_frame_witness :
    (IosSubscriptionService.buildIosSubscription exCappedUser .pro (some c7P1)
        (some c7P1.expires_date_ms) exNow).usage.requests.current
      = exCappedSub.usage.requests.current ∧
    (IosSubscriptionService.buildIosSubscription exCappedUser .pro (some c7P1)
        (some c7P1.expires_date_ms) exNow).usage.tokens.current
      = exCappedSub.usage.tokens.current ∧
    (IosSubscriptionService.buildIosSubscription exCappedUser .pro (some c7P1)
        (some c7P1.expires_date_ms) exNow).usage.resetDate
      = exCappedSub.usage.resetDate ∧
    (IosSubscriptionService.buildIosSubscription exCappedUser .pro (some c7P1)
        (some c7P1.expires_date_ms) exNow).startDate
      = some (exCappedSub.startDate.getD exNow) ∧
    (IosSubscriptionService.buildIosSubscription exCappedUser .pro (some c7P1)
        (some c7P1.expires_date_ms) exNow).platform = Platform.ios := by
  have h := buildIosSubscription_frame.1 exCappedUser exCappedSub .pro (some c7P1)
    (some c7P1.expires_date_ms) exNow rfl
  exact ⟨h.1, h.2.1, h.2.2.1, h.2.2.2.1, h.2.2.2.2.2.1⟩

/-! ## C1 — platform conflict -/

def c1T1 : DateTime := { year := 2025, month := 11, day := 1, ms := 0 }

def c1T2 : DateTime := { year := 2025, month := 8, day := 1, ms := 0 }

/-- Entitlement currently owned by the stripe platform, active until
`c1T1`. -/
def c1StripeSub : Subscription :=
  { plan := .pro
    status := .active
    platform := .stripe
    usage :=
      { requests := { current := 3, limit := 1000 }
        tokens := { current := 30, limit := 100000 }
        resetDate := exFuture }
    startDate := some exPast
    endDate := some c1T1
    iosReceiptData := none
    stripeSubscriptionId := some "sub_123"
    stripeCustomerId := some "cus_123" }

def c1User : User :=
  { userId := "u-stripe", email := "stripe@example.com", username := "stripe",
    subscription := some c1StripeSub }

def c1Db : Db := { users := [c1User], usageTable := [] }

/-- An iOS purchase expiring at `c1T2`, strictly before the stripe
owner's `c1T1`. -/
def c1Purchase : IosSubscriptionService.InAppPurchase :=
  { product_id := "com.yourapp.pro.monthly", transaction_id := "ios-t1",
    original_transaction_id := "ios-t1", purchase_date_ms := exPast,
    expires_date_ms := c1T2 }

/-- C1 as stated is false: the account is owned by `stripe` with
period end `c1T1`, the iOS receipt's selected purchase expires at
`c1T2 < c1T1`, and the stripe subscription has not lapsed
(`exNow < c1T1`) — yet processing the receipt switches `platform` to
`ios` and discards the stripe receipt metadata. -/
theorem updateUserSubscription_conflict_counterexample :
    dtLt c1T2 c1T1 = true ∧
    dtLt exNow c1T1 = true ∧
    c1StripeSub.platform = Platform.stripe ∧
    ((IosSubscriptionService.processSubscription c1Db "u-stripe" [c1Purchase]
        exNow).toOption.bind
      (fun pr => (DynamoDBService.getUserById pr.1 "u-stripe").bind
        (fun v => v.subscription))).map
        (fun s2 => (s2.platform, s2.stripeSubscriptionId, s2.stripeCustomerId))
      = some (Platform.ios, none, none) := by
  exact ⟨by decide, by decide, rfl, rfl⟩

/-- C1 amended: the iOS reconciliation implements no conflict rule —
the subscription object it writes always has `platform = ios` and no
stripe fields, and in particular an entitlement currently owned by
`stripe` with period end `t1` is switched to `ios` (stripe metadata
discarded) even when the selected purchase expires strictly earlier
(`T2 < t1`) and the stripe subscription has not lapsed (`now < t1`). -/
theorem updateUserSubscription_always_overwrites_platform :
    (∀ (user : User) (plan : Plan)
        (rec : Option IosSubscriptionService.InAppPurchase)
        (exp : Option DateTime) (now : DateTime),
      (IosSubscriptionService.buildIosSubscription user plan rec exp now).platform
        = Platform.ios ∧
      (IosSubscriptionService.buildIosSubscription user plan rec exp now).stripeSubscriptionId
        = none ∧
      (IosSubscriptionService.buildIosSubscription user plan rec exp now).stripeCustomerId
        = none) ∧
    (∀ (db : Db) (uid : String) (user : User) (s : Subscription)
        (purchases : List IosSubscriptionService.InAppPurchase)
        (sel : IosSubscriptionService.InAppPurchase) (plan : Plan)
        (t1 now : DateTime),
      DynamoDBService.getUserById db uid = some user →
      user.subscription = some s →
      s.platform = Platform.stripe →
      s.endDate = some t1 →
      IosSubscriptionService.getLatestActiveSubscription purchases = some sel →
      IosSubscriptionService.productIdToPlan sel.product_id = some plan →
      dtLt sel.expires_date_ms t1 = true →
      dtLt now t1 = true →
      ((IosSubscriptionService.processSubscription db uid purchases
          now).toOption.bind
        (fun pr => (DynamoDBService.getUserById pr.1 uid).bind
          (fun v => v.subscription))).map
          (fun s2 => (s2.platform, s2.stripeSubscriptionId, s2.stripeCustomerId))
        = some (Platform.ios, none, none)) := by
  constructor
  · intro user plan rec exp now
    exact ⟨rfl, rfl, rfl⟩
  · intro db uid user s purchases sel plan t1 now hfind hsub hplat hend hsel hplan hlt hnow
    have hbeq : (user.userId == uid) = true := by
      have h2 := hfind
      unfold DynamoDBService.getUserById at h2
      have h3 := List.find?_some h2
      exact h3
    have huid : user.userId = uid := eq_of_beq hbeq
    unfold IosSubscriptionService.processSubscription
    simp only [hfind, hsel, hplan]
    unfold IosSubscriptionService.updateUserSubscription
    unfold DynamoDBService.updateUserSubscription
    rw [huid]
    simp [Except.toOption, getUserById_setUserSub, hfind,
      IosSubscriptionService.buildIosSubscription]

/-- Concrete overwrite: the stripe-owned account of the counterexample
scenario ends up on `platform = ios` with the stripe identifiers
dropped. -/
theorem updateUserSubscription_always_overwrites_platform_witness :
    (IosSubscriptionService.buildIosSubscription c1User .pro (some c1Purchase)
        (some c1T2) exNow).platform = Platform.ios ∧
    ((IosSubscriptionService.processSubscription c1Db "u-stripe" [c1Purchase]
        exNow).toOption.bind
      (fun pr => (DynamoDBService.getUserById pr.1 "u-stripe").bind
        (fun v => v.subscription))).map
        (fun s2 => (s2.platform, s2.stripeSubscriptionId, s2.stripeCustomerId))
      = some (Platform.ios, none, none) := by
  refine ⟨(updateUserSubscription_always_overwrites_platform.1 c1User .pro
      (some c1Purchase) (some c1T2) exNow).1, ?_⟩
  exact updateUserSubscription_always_overwrites_platform.2 c1Db "u-stripe" c1User
    c1StripeSub [c1Purchase] c1Purchase .pro c1T1 exNow rfl rfl rfl rfl rfl rfl
    (by decide) (by decide)
